import Mathlib

/-!
Shallow embedding of `src/app/main.py`, a FastAPI server exposing a
JSON-RPC ("MCP") tool-invocation endpoint.  Python runtime values that can
occur in a request body are modelled by `JValue`; Python dictionaries by
association lists looked up with `pyLookup` (CPython dicts have unique
keys, so first-match lookup agrees).  Python `float` is abstracted as an
exact rational: every claim under verification depends only on the
int-vs-float tag of a number, never on IEEE-754 rounding.  The one network
interaction (`save_conversation_tool`'s outbound POST) is passed in as an
explicit `NetOutcome` oracle, and the endpoint is the pure function
`mcp_endpoint : MCPRequest → NetOutcome → EndpointResult`.
-/

/-- A Python runtime value, as decoded from the JSON request body.
`vBool` is kept distinct from `vInt` because CPython `bool` is a subclass
of `int`: `isinstance(True, int)` holds, which the numeric checks below
reproduce. -/
inductive JValue where
  | vNull
  | vBool (b : Bool)
  | vInt (i : Int)
  | vFloat (q : Rat)
  | vStr (s : String)
  | vList (xs : List JValue)
  | vObj (fields : List (String × JValue))
deriving Repr

/-- A Python dict with string keys, as the handlers receive. -/
abbrev PyDict := List (String × JValue)

/-- First-match association lookup, the model of `d[k]` / `k in d` on a
CPython dict (whose keys are unique). -/
def pyLookup {α : Type} (d : List (String × α)) (k : String) : Option α :=
  match d with
  | [] => none
  | (k2, v) :: rest => if k2 = k then some v else pyLookup rest k

/-- A Python number after the `isinstance(x, (int, float))` check:
either an exact machine integer or a float (modelled as a rational). -/
inductive PyNum where
  | int (i : Int)
  | float (q : Rat)
deriving Repr

/-- The values accepted by `isinstance(x, (int, float))` in CPython:
ints, floats, and bools (`bool` subclasses `int`, `True` counting as 1 and
`False` as 0). -/
def JValue.toNum : JValue → Option PyNum
  | .vInt i => some (.int i)
  | .vFloat q => some (.float q)
  | .vBool b => some (.int (if b then 1 else 0))
  | _ => none

/-- Whether the value is a non-bool int or a float (the literal reading of
"numeric (integer or floating)" in the schema; bools are the separate
subclass case). -/
def JValue.isIntOrFloat : JValue → Bool
  | .vInt _ => true
  | .vFloat _ => true
  | _ => false

/-- Whether the value is a Python bool. -/
def JValue.isBool : JValue → Bool
  | .vBool _ => true
  | _ => false

/-- Whether a number carries the float tag. -/
def PyNum.isFloat : PyNum → Bool
  | .float _ => true
  | .int _ => false

/-- The rational a number denotes, forgetting the tag. -/
def PyNum.toRat : PyNum → Rat
  | .int i => (i : Rat)
  | .float q => q

/-- Python `+` on numbers: int + int stays an exact int, any float operand
promotes the result to float. -/
def pyAdd : PyNum → PyNum → PyNum
  | .int a, .int b => .int (a + b)
  | a, b => .float (a.toRat + b.toRat)

/-- Python `*` on numbers: int * int stays an exact int, any float operand
promotes the result to float. -/
def pyMul : PyNum → PyNum → PyNum
  | .int a, .int b => .int (a * b)
  | a, b => .float (a.toRat * b.toRat)

/-- Textual form of a modelled float.  CPython prints the shortest decimal
that round-trips the IEEE-754 double; the model carries exact rationals
and renders them with their Lean notation.  No claim under verification
pins the text of a float result. -/
def pyFloatRepr (q : Rat) : String := toString q

/-- Python `str()` of a number, as interpolated by an f-string:
ints print in decimal (with a leading minus when negative), floats via
`pyFloatRepr`. -/
def pyNumStr : PyNum → String
  | .int i => toString i
  | .float q => pyFloatRepr q

/-- The `", "` separator CPython puts between container elements. -/
def joinComma (xs : List String) : String := String.intercalate ", " xs

/-- Python `repr()` of a value.  Scalars follow CPython exactly (modulo
the float abstraction); string repr is approximated with a fixed quote
style and no escaping, which no claim exercises. -/
def pyRepr : JValue → String
  | .vNull => "None"
  | .vBool true => "True"
  | .vBool false => "False"
  | .vInt i => toString i
  | .vFloat q => pyFloatRepr q
  | .vStr s => "\x27" ++ s ++ "\x27"
  | .vList xs => "[" ++ joinComma (xs.attach.map fun p => pyRepr p.1) ++ "]"
  | .vObj fs =>
      "\x7b" ++
        joinComma (fs.attach.map fun p => "\x27" ++ p.1.1 ++ "\x27: " ++ pyRepr p.1.2) ++
      "\x7d"
decreasing_by
  · have h1 : sizeOf p.1 < sizeOf xs := List.sizeOf_lt_of_mem p.2
    simp only [JValue.vList.sizeOf_spec]
    omega
  · have h1 : sizeOf p.1 < sizeOf fs := List.sizeOf_lt_of_mem p.2
    have h2 : sizeOf p.1.2 < sizeOf p.1 := by
      cases p.1 with
      | mk k v => simp
    simp only [JValue.vObj.sizeOf_spec]
    omega

/-- Python `str()` of a value, as interpolated into an f-string: a string
interpolates as itself, everything else as its repr (CPython containers
print element reprs; scalar str equals repr). -/
def pyStr : JValue → String
  | .vStr s => s
  | v => pyRepr v

/-- Python type name, for the TypeError text raised by `k in args` on a
non-iterable arguments value. -/
def pyTypeName : JValue → String
  | .vNull => "NoneType"
  | .vBool _ => "bool"
  | .vInt _ => "int"
  | .vFloat _ => "float"
  | .vStr _ => "str"
  | .vList _ => "list"
  | .vObj _ => "dict"

-- MCP error codes, the `MCP_ERRORS` dict literal of the source.
namespace MCP_ERRORS

def PARSE_ERROR : Int := -32700

def INVALID_REQUEST : Int := -32600

def METHOD_NOT_FOUND : Int := -32601

def INVALID_PARAMS : Int := -32602

def INTERNAL_ERROR : Int := -32603

end MCP_ERRORS

/-- Outcome of `response.json()` on the downstream body: a parsed JSON
object from which only the optional `url` field is consumed, or a raised
decode error with its message. -/
inductive JsonParse where
  | parsed (urlField : Option JValue)
  | failed (msg : String)
deriving Repr

/-- Outcome of the one outbound network interaction performed by
`save_conversation_tool`: either the POST completed with a status code, a
body text and a JSON-parse outcome for that body, or `httpx` raised a
request-level error (connection failure or the 30-second timeout). -/
inductive NetOutcome where
  | resp (status : Nat) (bodyText : String) (json : JsonParse)
  | reqError (msg : String)
deriving Repr

/-- `add_tool` of the source: requires keys `a` and `b`, each passing
`isinstance(x, (int, float))`, and returns the f-string
`"Result: " + str(a + b)`. -/
def add_tool (args : PyDict) : Except String String :=
  if (pyLookup args "a").isNone ∨ (pyLookup args "b").isNone then
    .error "Missing parameters: a and b"
  else
    match ((pyLookup args "a").getD .vNull).toNum,
          ((pyLookup args "b").getD .vNull).toNum with
    | some x, some y => .ok ("Result: " ++ pyNumStr (pyAdd x y))
    | _, _ => .error "Parameters a and b must be numbers"

/-- Code-point reversal, the model of Python `s[::-1]` (a `str` is a
sequence of Unicode code points, so the slice reverses scalars, never
bytes). -/
def pyReverse (s : String) : String := String.mk s.data.reverse

/-- `reverse_tool` of the source: requires a string key `text` and
returns `"Result: " + text[::-1]`. -/
def reverse_tool (args : PyDict) : Except String String :=
  match pyLookup args "text" with
  | none => .error "Missing parameter: text"
  | some (.vStr s) => .ok ("Result: " ++ pyReverse s)
  | some _ => .error "Parameter text must be a string"

/-- `multiply_tool` of the source: same shape as `add_tool` with `*`. -/
def multiply_tool (args : PyDict) : Except String String :=
  if (pyLookup args "a").isNone ∨ (pyLookup args "b").isNone then
    .error "Missing parameters: a and b"
  else
    match ((pyLookup args "a").getD .vNull).toNum,
          ((pyLookup args "b").getD .vNull).toNum with
    | some x, some y => .ok ("Result: " ++ pyNumStr (pyMul x y))
    | _, _ => .error "Parameters a and b must be numbers"

/-- `save_conversation_tool` of the source.  The validation mirrors the
Python checks; the network part consumes the `NetOutcome` oracle.  Note
the exception plumbing of the source: the `ValueError` raised on a
non-201 status inside the `try` block is itself caught by the trailing
`except Exception` clause and re-raised wrapped in
`"Error saving conversation: "`, as is a JSON decode failure on a 201
body; an `httpx.RequestError` is caught by the first clause and wrapped
in `"Failed to connect to scraper server: "`. -/
def save_conversation_tool (args : PyDict) (net : NetOutcome) :
    Except String String :=
  match pyLookup args "conversation" with
  | none => .error "Missing required parameter: conversation"
  | some (.vStr _) =>
    match net with
    | .reqError m => .error ("Failed to connect to scraper server: " ++ m)
    | .resp status body js =>
      if status = 201 then
        match js with
        | .parsed urlField =>
            .ok ("Conversation saved successfully! View it at: " ++
              (match urlField with
               | some v => pyStr v
               | none => "N/A"))
        | .failed m => .error ("Error saving conversation: " ++ m)
      else
        .error ("Error saving conversation: " ++ "API request failed: " ++
          toString status ++ " - " ++ body)
  | some _ => .error "Parameter conversation must be a string"

/-- A registered handler: arguments dict and network oracle to a result
string or a raised error message.  The synchronous tools ignore the
oracle; the source awaits `save_conversation` and calls the rest
directly, with identical observable behaviour. -/
abbrev Handler := PyDict → NetOutcome → Except String String

/-- The `TOOLS` registry literal of the source, in source order. -/
def TOOLS : List (String × Handler) :=
  [("add", fun args _ => add_tool args),
   ("reverse", fun args _ => reverse_tool args),
   ("multiply", fun args _ => multiply_tool args),
   ("save_conversation", fun args net => save_conversation_tool args net)]

/-- Python `tool_name not in TOOLS` at dispatch time: the registry keys
are strings, so a non-string name is never a member; a string name is
looked up by key. -/
def lookupTool : JValue → Option Handler
  | .vStr n => pyLookup TOOLS n
  | _ => none

/-- Handler applied to the raw `arguments` value.  On a dict the handler
body runs; the first key-membership test inside every handler makes a
non-iterable arguments value raise a TypeError (string and list arguments
take type-specific containment paths that no claim exercises, folded into
the same caught failure here).  Either way the failure is raised inside
the dispatcher's per-call `try` block. -/
def runHandler (h : Handler) (toolArgs : JValue) (net : NetOutcome) :
    Except String String :=
  match toolArgs with
  | .vObj d => h d net
  | v =>
      .error ("argument of type \x27" ++ pyTypeName v ++
        "\x27 is not iterable")

/-- The `TOOL_SCHEMAS` literal of the source, as the JSON value returned
by `tools/list`. -/
def TOOL_SCHEMAS : JValue :=
  .vList
    [.vObj
      [("name", .vStr "add"),
       ("description", .vStr "Add two numbers together"),
       ("inputSchema", .vObj
         [("type", .vStr "object"),
          ("properties", .vObj
            [("a", .vObj [("type", .vStr "number"),
                          ("description", .vStr "First number")]),
             ("b", .vObj [("type", .vStr "number"),
                          ("description", .vStr "Second number")])]),
          ("required", .vList [.vStr "a", .vStr "b"])])],
     .vObj
      [("name", .vStr "reverse"),
       ("description", .vStr "Reverse a string"),
       ("inputSchema", .vObj
         [("type", .vStr "object"),
          ("properties", .vObj
            [("text", .vObj [("type", .vStr "string"),
                             ("description", .vStr "Text to reverse")])]),
          ("required", .vList [.vStr "text"])])],
     .vObj
      [("name", .vStr "multiply"),
       ("description", .vStr "Multiply two numbers"),
       ("inputSchema", .vObj
         [("type", .vStr "object"),
          ("properties", .vObj
            [("a", .vObj [("type", .vStr "number"),
                          ("description", .vStr "First number")]),
             ("b", .vObj [("type", .vStr "number"),
                          ("description", .vStr "Second number")])]),
          ("required", .vList [.vStr "a", .vStr "b"])])],
     .vObj
      [("name", .vStr "save_conversation"),
       ("description", .vStr "Archive and save your conversation permanently. When called, you MUST include the complete conversation history with ALL human messages AND all assistant responses from the beginning of the conversation. Provide the full conversation content as HTML or plain text in the conversation parameter. Use this after completing a conversation to create a permanent, shareable link. on aiarchives.duckdns.org."),
       ("inputSchema", .vObj
         [("type", .vStr "object"),
          ("properties", .vObj
            [("conversation", .vObj
              [("type", .vStr "string"),
               ("description", .vStr "The full conversation to save")])]),
          ("required", .vList [.vStr "conversation"])])]]

/-- A JSON-RPC request identifier, `Union[str, int]` in the pydantic
model. -/
inductive RId where
  | s (v : String)
  | n (v : Int)
deriving Repr, DecidableEq

/-- The pydantic `MCPRequest` model: `jsonrpc` and `method` are required
strings, `params` an optional dict, `id` an optional string-or-int
(absent and JSON `null` both land on `none`).  Bodies failing this shape
are rejected by the framework with a 422 before the endpoint runs and are
outside the dispatcher under verification. -/
structure MCPRequest where
  jsonrpc : String
  method : String
  params : Option PyDict
  id : Option RId

/-- The `error` object of an error envelope. -/
structure MCPError where
  code : Int
  message : String
deriving Repr

/-- A response envelope, one of the dict literals the endpoint returns:
each carries `"jsonrpc": "2.0"`, the echoed `id`, and exactly one of a
`result` key or an `error` key — the two `Option` fields record which
key the literal contains. -/
structure MCPResponse where
  jsonrpc : String
  id : Option RId
  result : Option JValue
  error : Option MCPError
deriving Repr

/-- A success envelope literal `{jsonrpc, id, result}`. -/
def okResponse (rid : Option RId) (res : JValue) : MCPResponse :=
  ⟨"2.0", rid, some res, none⟩

/-- An error envelope literal `{jsonrpc, id, error: {code, message}}`. -/
def errResponse (rid : Option RId) (code : Int) (msg : String) :
    MCPResponse :=
  ⟨"2.0", rid, none, some ⟨code, msg⟩⟩

/-- What the endpoint hands the transport: HTTP 204 with no body
(`Response(status_code=204)`) or an HTTP 200 JSON envelope. -/
inductive EndpointResult where
  | noContent
  | json (e : MCPResponse)
deriving Repr

/-- The `initialize` result literal of the source. -/
def initResult : JValue :=
  .vObj
    [("protocolVersion", .vStr "2025-06-18"),
     ("capabilities", .vObj [("tools", .vObj [])]),
     ("serverInfo", .vObj
       [("name", .vStr "Python MCP Server"),
        ("version", .vStr "1.0.0")])]

/-- The `tools/call` success result literal
`{content: [{type: "text", text: result}]}`. -/
def callResult (r : String) : JValue :=
  .vObj [("content", .vList
    [.vObj [("type", .vStr "text"), ("text", .vStr r)]])]

/-- The body of `mcp_endpoint` past the notification check, every branch
of which returns an envelope.  Mirrors the source order: version check,
then the `initialize` / `tools/list` / `tools/call` / fallthrough chain.
`not request.params` is true both for `None` and for an empty dict, hence
the `isEmpty` disjunct.  The source's outer `except Exception` (the
INTERNAL_ERROR catch-all) guards only these same total computations plus
logging and is unreachable in the model. -/
def dispatch (req : MCPRequest) (net : NetOutcome) : MCPResponse :=
  if req.jsonrpc ≠ "2.0" then
    errResponse req.id MCP_ERRORS.INVALID_REQUEST "Invalid jsonrpc"
  else if req.method = "initialize" then
    okResponse req.id initResult
  else if req.method = "tools/list" then
    okResponse req.id (.vObj [("tools", TOOL_SCHEMAS)])
  else if req.method = "tools/call" then
    match req.params with
    | none => errResponse req.id MCP_ERRORS.INVALID_PARAMS "Missing name/arguments"
    | some p =>
      if p.isEmpty ∨ (pyLookup p "name").isNone ∨
          (pyLookup p "arguments").isNone then
        errResponse req.id MCP_ERRORS.INVALID_PARAMS "Missing name/arguments"
      else
        match lookupTool ((pyLookup p "name").getD .vNull) with
        | none =>
            errResponse req.id MCP_ERRORS.METHOD_NOT_FOUND
              ("Unknown tool: " ++ pyStr ((pyLookup p "name").getD .vNull))
        | some h =>
          match runHandler h ((pyLookup p "arguments").getD .vNull) net with
          | .ok r => okResponse req.id (callResult r)
          | .error m => errResponse req.id MCP_ERRORS.INVALID_PARAMS m
  else
    errResponse req.id MCP_ERRORS.METHOD_NOT_FOUND
      ("Method not found: " ++ req.method)

/-- The `/mcp` POST endpoint.  `if request.id is None and request.method:`
classifies notifications first — note the truthiness test on `method`: an
empty string is falsy, so only a request with no id AND a non-empty
method short-circuits to 204. -/
def mcp_endpoint (req : MCPRequest) (net : NetOutcome) : EndpointResult :=
  if req.id = none ∧ req.method ≠ "" then .noContent
  else .json (dispatch req net)

example :
    mcp_endpoint ⟨"2.0", "tools/call",
      some [("name", .vStr "add"),
            ("arguments", .vObj [("a", .vInt 2), ("b", .vInt 3)])],
      some (.n 1)⟩ (.reqError "offline") =
    .json (okResponse (some (.n 1)) (callResult "Result: 5")) := by rfl

/-- Every envelope `dispatch` builds carries the request id unchanged. -/
theorem dispatch_id (req : MCPRequest) (net : NetOutcome) :
    (dispatch req net).id = req.id := by
  unfold dispatch
  repeat' split <;> try rfl

/-- Every envelope `dispatch` builds carries exactly one of a `result`
field or an `error` field. -/
theorem dispatch_result_xor_error (req : MCPRequest) (net : NetOutcome) :
    ((dispatch req net).result.isSome ∧ (dispatch req net).error = none) ∨
    ((dispatch req net).result = none ∧ (dispatch req net).error.isSome) := by
  unfold dispatch
  repeat' split
  all_goals simp [okResponse, errResponse]

/-- C1 (amended): a request carrying an identifier yields exactly one
response envelope holding exactly one of a result field or an error field;
a request with no identifier and a non-empty method yields no envelope
(HTTP 204). -/
theorem C1_one_response_per_request (req : MCPRequest) (net : NetOutcome) :
    (∀ i, req.id = some i →
      ∃ e, mcp_endpoint req net = .json e ∧
        ((e.result.isSome ∧ e.error = none) ∨
         (e.result = none ∧ e.error.isSome))) ∧
    (req.id = none → req.method ≠ "" → mcp_endpoint req net = .noContent) := by
  constructor
  · intro i hi
    refine ⟨dispatch req net, ?_, dispatch_result_xor_error req net⟩
    unfold mcp_endpoint
    rw [if_neg (by simp [hi])]
  · intro h1 h2
    unfold mcp_endpoint
    rw [if_pos ⟨h1, h2⟩]

/-- C1 counterexample: a request with no identifier whose method is the
empty string is not treated as a notification — the falsy-string test
`request.method` fails — and an envelope (METHOD_NOT_FOUND) is produced,
against the claim that an id-less request produces none. -/
theorem C1_cex_empty_method_envelope :
    (⟨"2.0", "", none, none⟩ : MCPRequest).id = none ∧
    mcp_endpoint ⟨"2.0", "", none, none⟩ (.reqError "offline") =
      .json (errResponse none MCP_ERRORS.METHOD_NOT_FOUND
        "Method not found: ") :=
  ⟨rfl, rfl⟩

/-- C1 witness: a concrete identified request (initialize, id 1) yields
exactly one envelope with exactly one of result/error. -/
theorem C1_witness :
    ∃ e, mcp_endpoint ⟨"2.0", "initialize", none, some (.n 1)⟩
        (.reqError "offline") = .json e ∧
      ((e.result.isSome ∧ e.error = none) ∨
       (e.result = none ∧ e.error.isSome)) :=
  (C1_one_response_per_request ⟨"2.0", "initialize", none, some (.n 1)⟩
    (.reqError "offline")).1 (.n 1) rfl

/-- C5: an identified request whose jsonrpc tag differs from "2.0" gets
an INVALID_REQUEST (-32600) envelope, for every method name, before any
routing. -/
theorem C5_version_check (req : MCPRequest) (net : NetOutcome) (i : RId)
    (hid : req.id = some i) (hv : req.jsonrpc ≠ "2.0") :
    mcp_endpoint req net =
      .json (errResponse req.id MCP_ERRORS.INVALID_REQUEST
        "Invalid jsonrpc") := by
  unfold mcp_endpoint
  rw [if_neg (by simp [hid])]
  unfold dispatch
  rw [if_pos hv]

/-- C5 witness: jsonrpc "1.0" with id 2 and method tools/list gets the
INVALID_REQUEST envelope. -/
theorem C5_witness :
    mcp_endpoint ⟨"1.0", "tools/list", none, some (.n 2)⟩
        (.reqError "offline") =
      .json (errResponse (some (.n 2)) MCP_ERRORS.INVALID_REQUEST
        "Invalid jsonrpc") :=
  C5_version_check ⟨"1.0", "tools/list", none, some (.n 2)⟩
    (.reqError "offline") (.n 2) rfl (by decide)

/-- C6 (amended): a request with no id and a NON-EMPTY method is
classified as a notification and answered with HTTP 204 and no body, for
any jsonrpc tag — the classification precedes the version check. -/
theorem C6_notification_no_content (req : MCPRequest) (net : NetOutcome)
    (h1 : req.id = none) (h2 : req.method ≠ "") :
    mcp_endpoint req net = .noContent := by
  unfold mcp_endpoint
  rw [if_pos ⟨h1, h2⟩]

/-- C6 counterexample: the method field is present but empty, the id is
absent, and the endpoint answers with an INVALID_REQUEST envelope instead
of the claimed 204 — the code tests the truthiness of `method`, not its
presence. -/
theorem C6_cex_empty_method_not_204 :
    (⟨"1.0", "", none, none⟩ : MCPRequest).id = none ∧
    mcp_endpoint ⟨"1.0", "", none, none⟩ (.reqError "offline") =
      .json (errResponse none MCP_ERRORS.INVALID_REQUEST
        "Invalid jsonrpc") :=
  ⟨rfl, rfl⟩

/-- C6 witness: a no-id request with method "shutdown" and jsonrpc "1.0"
still gets 204, showing classification happens before the version
check. -/
theorem C6_witness :
    mcp_endpoint ⟨"1.0", "shutdown", none, none⟩ (.reqError "offline") =
      .noContent :=
  C6_notification_no_content ⟨"1.0", "shutdown", none, none⟩
    (.reqError "offline") rfl (by decide)

/-- C9: every envelope the endpoint produces echoes the request id
unmodified, success and error alike, including an absent/null id. -/
theorem C9_id_echoed (req : MCPRequest) (net : NetOutcome)
    (e : MCPResponse) (h : mcp_endpoint req net = .json e) :
    e.id = req.id := by
  unfold mcp_endpoint at h
  split at h
  · exact absurd h (by simp)
  · injection h with h2
    rw [← h2]
    exact dispatch_id req net

/-- C9 witness: the error envelope for an unknown method with string id
"abc" echoes that id. -/
theorem C9_witness :
    (errResponse (some (.s "abc")) MCP_ERRORS.METHOD_NOT_FOUND
      "Method not found: frobnicate").id = some (RId.s "abc") :=
  C9_id_echoed ⟨"2.0", "frobnicate", none, some (.s "abc")⟩
    (.reqError "offline") _ rfl

/-- A successful key lookup means the dict is non-empty. -/
theorem pyLookup_isEmpty_false {α : Type} {d : List (String × α)} {k : String}
    {v : α} (h : pyLookup d k = some v) : d.isEmpty = false := by
  cases d with
  | nil => simp [pyLookup] at h
  | cons a t => simp [List.isEmpty]

/-- An identified request is never a notification: the endpoint returns
the dispatched envelope. -/
theorem mcp_endpoint_identified (req : MCPRequest) (net : NetOutcome)
    (i : RId) (hid : req.id = some i) :
    mcp_endpoint req net = .json (dispatch req net) := by
  unfold mcp_endpoint
  rw [if_neg (by simp [hid])]

/-- Reduction of `dispatch` on a well-formed `tools/call`: with the
version tag right and both `name` and `arguments` keys present, the
dispatch is tool lookup followed by handler invocation. -/
theorem dispatch_tools_call (req : MCPRequest) (net : NetOutcome)
    (p : PyDict) (nm args : JValue)
    (hv : req.jsonrpc = "2.0") (hm : req.method = "tools/call")
    (hp : req.params = some p)
    (hn : pyLookup p "name" = some nm)
    (ha : pyLookup p "arguments" = some args) :
    dispatch req net =
      match lookupTool nm with
      | none =>
          errResponse req.id MCP_ERRORS.METHOD_NOT_FOUND
            ("Unknown tool: " ++ pyStr nm)
      | some h =>
        match runHandler h args net with
        | .ok r => okResponse req.id (callResult r)
        | .error m => errResponse req.id MCP_ERRORS.INVALID_PARAMS m := by
  unfold dispatch
  rw [hv, hm, hp]
  simp only [ne_eq, pyLookup_isEmpty_false hn, hn, ha]
  simp

/-- A name outside the four registry keys is not found by the registry
lookup. -/
theorem lookupTool_not_registered {nm : String}
    (h : nm ∉ (["add", "reverse", "multiply",
      "save_conversation"] : List String)) :
    lookupTool (.vStr nm) = none := by
  simp only [List.mem_cons, List.not_mem_nil, or_false, not_or] at h
  obtain ⟨h1, h2, h3, h4⟩ := h
  have g1 : ("add" : String) ≠ nm := fun hh => h1 hh.symm
  have g2 : ("reverse" : String) ≠ nm := fun hh => h2 hh.symm
  have g3 : ("multiply" : String) ≠ nm := fun hh => h3 hh.symm
  have g4 : ("save_conversation" : String) ≠ nm := fun hh => h4 hh.symm
  simp [lookupTool, TOOLS, pyLookup, g1, g2, g3, g4]

/-- C7 (amended): for an identified request with jsonrpc "2.0", a method
outside initialize / tools-list / tools-call yields METHOD_NOT_FOUND with
the method name inside the message; and a tools/call whose params carry
both a `name` and an `arguments` key with a string name outside the four
registered tools yields METHOD_NOT_FOUND with the tool name inside the
message. -/
theorem C7_method_not_found (req : MCPRequest) (net : NetOutcome) (i : RId)
    (hid : req.id = some i) (hv : req.jsonrpc = "2.0") :
    (req.method ∉ (["initialize", "tools/list",
        "tools/call"] : List String) →
      mcp_endpoint req net =
        .json (errResponse req.id MCP_ERRORS.METHOD_NOT_FOUND
          ("Method not found: " ++ req.method)) ∧
      ∃ l r, "Method not found: " ++ req.method = l ++ req.method ++ r) ∧
    (∀ p nm args, req.method = "tools/call" → req.params = some p →
      pyLookup p "name" = some (.vStr nm) →
      pyLookup p "arguments" = some args →
      nm ∉ (["add", "reverse", "multiply",
        "save_conversation"] : List String) →
      mcp_endpoint req net =
        .json (errResponse req.id MCP_ERRORS.METHOD_NOT_FOUND
          ("Unknown tool: " ++ nm)) ∧
      ∃ l r, "Unknown tool: " ++ nm = l ++ nm ++ r) := by
  constructor
  · intro hmem
    simp only [List.mem_cons, List.not_mem_nil, or_false, not_or] at hmem
    obtain ⟨h1, h2, h3⟩ := hmem
    refine ⟨?_, "Method not found: ", "", by rw [String.append_empty]⟩
    rw [mcp_endpoint_identified req net i hid]
    unfold dispatch
    rw [hv]
    simp [h1, h2, h3]
  · intro p nm args hm hp hn ha hmem
    refine ⟨?_, "Unknown tool: ", "", by rw [String.append_empty]⟩
    rw [mcp_endpoint_identified req net i hid,
      dispatch_tools_call req net p (.vStr nm) args hv hm hp hn ha,
      lookupTool_not_registered hmem]
    rfl

/-- C7 witness: method "frobnicate" (id 3, jsonrpc "2.0") gets the
METHOD_NOT_FOUND envelope naming it. -/
theorem C7_witness :
    mcp_endpoint ⟨"2.0", "frobnicate", none, some (.n 3)⟩
        (.reqError "offline") =
      .json (errResponse (some (.n 3)) MCP_ERRORS.METHOD_NOT_FOUND
        "Method not found: frobnicate") :=
  ((C7_method_not_found ⟨"2.0", "frobnicate", none, some (.n 3)⟩
    (.reqError "offline") (.n 3) rfl rfl).1 (by decide)).1

/-- C7 counterexample: a tools/call with an unknown tool name "bogus" but
a params dict that lacks the `arguments` key is answered with
INVALID_PARAMS "Missing name/arguments", not with the claimed
METHOD_NOT_FOUND naming the tool. -/
theorem C7_cex_missing_arguments :
    mcp_endpoint ⟨"2.0", "tools/call", some [("name", .vStr "bogus")],
        some (.n 4)⟩ (.reqError "offline") =
      .json (errResponse (some (.n 4)) MCP_ERRORS.INVALID_PARAMS
        "Missing name/arguments") :=
  rfl

/-- C4: any failure raised by a registered handler at invocation — missing
argument, mistyped argument, non-dict arguments, or downstream failure —
is caught at the call boundary and returned as an INVALID_PARAMS envelope
whose message is the failure message; the produced code is -32602, never
INTERNAL_ERROR (-32603). -/
theorem C4_handler_failure_invalid_params (req : MCPRequest)
    (net : NetOutcome) (p : PyDict) (nm args : JValue) (h : Handler)
    (m : String) (i : RId)
    (hid : req.id = some i) (hv : req.jsonrpc = "2.0")
    (hm : req.method = "tools/call") (hp : req.params = some p)
    (hn : pyLookup p "name" = some nm)
    (ha : pyLookup p "arguments" = some args)
    (hl : lookupTool nm = some h)
    (hrun : runHandler h args net = .error m) :
    mcp_endpoint req net =
      .json (errResponse req.id MCP_ERRORS.INVALID_PARAMS m) ∧
    MCP_ERRORS.INVALID_PARAMS ≠ MCP_ERRORS.INTERNAL_ERROR := by
  refine ⟨?_, by decide⟩
  rw [mcp_endpoint_identified req net i hid,
    dispatch_tools_call req net p nm args hv hm hp hn ha]
  simp only [hl]
  rw [hrun]

/-- C4 witness: calling `add` with an empty arguments dict raises the
missing-parameters failure, surfaced as INVALID_PARAMS with that
message. -/
theorem C4_witness :
    mcp_endpoint ⟨"2.0", "tools/call",
        some [("name", .vStr "add"), ("arguments", .vObj [])],
        some (.n 5)⟩ (.reqError "offline") =
      .json (errResponse (some (.n 5)) MCP_ERRORS.INVALID_PARAMS
        "Missing parameters: a and b") :=
  (C4_handler_failure_invalid_params
    ⟨"2.0", "tools/call",
      some [("name", .vStr "add"), ("arguments", .vObj [])],
      some (.n 5)⟩
    (.reqError "offline")
    [("name", .vStr "add"), ("arguments", .vObj [])]
    (.vStr "add") (.vObj []) (fun args _ => add_tool args)
    "Missing parameters: a and b" (.n 5)
    rfl rfl rfl rfl rfl rfl rfl rfl).1

/-- C8: a save_conversation call with a valid string conversation whose
downstream POST completes with any non-201 status is answered with an
INVALID_PARAMS envelope whose message contains the numeric status code
and the response body text (the non-201 ValueError is re-wrapped by the
handler's own catch-all before reaching the boundary). -/
theorem C8_save_non201_invalid_params (req : MCPRequest) (p args2 : PyDict)
    (c body : String) (status : Nat) (js : JsonParse) (i : RId)
    (hid : req.id = some i) (hv : req.jsonrpc = "2.0")
    (hm : req.method = "tools/call") (hp : req.params = some p)
    (hn : pyLookup p "name" = some (.vStr "save_conversation"))
    (ha : pyLookup p "arguments" = some (.vObj args2))
    (hc : pyLookup args2 "conversation" = some (.vStr c))
    (hs : status ≠ 201) :
    mcp_endpoint req (.resp status body js) =
      .json (errResponse req.id MCP_ERRORS.INVALID_PARAMS
        ("Error saving conversation: " ++ "API request failed: " ++
          toString status ++ " - " ++ body)) ∧
    ∃ l mid r,
      ("Error saving conversation: " ++ "API request failed: " ++
        toString status ++ " - " ++ body) =
        l ++ toString status ++ mid ++ body ++ r := by
  constructor
  · rw [mcp_endpoint_identified req (.resp status body js) i hid,
      dispatch_tools_call req (.resp status body js) p
        (.vStr "save_conversation") (.vObj args2) hv hm hp hn ha]
    have hl : lookupTool (.vStr "save_conversation") =
        some (fun a n => save_conversation_tool a n) := rfl
    simp only [hl]
    have hrun : runHandler (fun a n => save_conversation_tool a n)
        (.vObj args2) (.resp status body js) =
        .error ("Error saving conversation: " ++ "API request failed: " ++
          toString status ++ " - " ++ body) := by
      show save_conversation_tool args2 (.resp status body js) = _
      unfold save_conversation_tool
      rw [hc]
      simp [hs]
    rw [hrun]
  · exact ⟨"Error saving conversation: " ++ "API request failed: ",
      " - ", "", by rw [String.append_empty]⟩

/-- C8 witness: downstream HTTP 500 with body "Internal Server Error"
yields the INVALID_PARAMS envelope carrying both. -/
theorem C8_witness :
    mcp_endpoint ⟨"2.0", "tools/call",
        some [("name", .vStr "save_conversation"),
          ("arguments", .vObj [("conversation", .vStr "a chat log")])],
        some (.n 6)⟩ (.resp 500 "Internal Server Error" (.parsed none)) =
      .json (errResponse (some (.n 6)) MCP_ERRORS.INVALID_PARAMS
        ("Error saving conversation: " ++ "API request failed: " ++
          toString (500 : Nat) ++ " - " ++ "Internal Server Error")) :=
  (C8_save_non201_invalid_params
    ⟨"2.0", "tools/call",
      some [("name", .vStr "save_conversation"),
        ("arguments", .vObj [("conversation", .vStr "a chat log")])],
      some (.n 6)⟩
    [("name", .vStr "save_conversation"),
      ("arguments", .vObj [("conversation", .vStr "a chat log")])]
    [("conversation", .vStr "a chat log")]
    "a chat log" "Internal Server Error" 500 (.parsed none) (.n 6)
    rfl rfl rfl rfl rfl rfl rfl (by decide)).1

/-- Evaluation of `add_tool` when both arguments are present and pass the
numeric check. -/
theorem add_tool_num (d : PyDict) (va vb : JValue) (x y : PyNum)
    (ha : pyLookup d "a" = some va) (hb : pyLookup d "b" = some vb)
    (hx : va.toNum = some x) (hy : vb.toNum = some y) :
    add_tool d = .ok ("Result: " ++ pyNumStr (pyAdd x y)) := by
  unfold add_tool
  simp only [ha, hb, Option.isNone_some, Option.getD_some, hx, hy]
  simp

/-- Evaluation of `multiply_tool` when both arguments are present and
pass the numeric check. -/
theorem multiply_tool_num (d : PyDict) (va vb : JValue) (x y : PyNum)
    (ha : pyLookup d "a" = some va) (hb : pyLookup d "b" = some vb)
    (hx : va.toNum = some x) (hy : vb.toNum = some y) :
    multiply_tool d = .ok ("Result: " ++ pyNumStr (pyMul x y)) := by
  unfold multiply_tool
  simp only [ha, hb, Option.isNone_some, Option.getD_some, hx, hy]
  simp

/-- C2: an add or multiply call whose `a` and `b` are numeric (integer or
floating) succeeds with text "Result: " followed by the sum
(respectively product); int+int stays an exact int and any float operand
promotes the result to the float tag. -/
theorem C2_add_multiply_numeric (d : PyDict) (va vb : JValue)
    (ha : pyLookup d "a" = some va) (hb : pyLookup d "b" = some vb)
    (hna : va.isIntOrFloat = true) (hnb : vb.isIntOrFloat = true) :
    (∃ x y, va.toNum = some x ∧ vb.toNum = some y ∧
      add_tool d = .ok ("Result: " ++ pyNumStr (pyAdd x y)) ∧
      multiply_tool d = .ok ("Result: " ++ pyNumStr (pyMul x y))) ∧
    (∀ i j : Int, pyAdd (.int i) (.int j) = .int (i + j) ∧
      pyMul (.int i) (.int j) = .int (i * j)) ∧
    (∀ x y : PyNum, x.isFloat = true ∨ y.isFloat = true →
      (pyAdd x y).isFloat = true ∧ (pyMul x y).isFloat = true) := by
  refine ⟨?_, fun i j => ⟨rfl, rfl⟩, ?_⟩
  · obtain ⟨x, hx⟩ : ∃ x, va.toNum = some x := by
      cases va <;>
        first
          | exact ⟨_, rfl⟩
          | simp [JValue.isIntOrFloat] at hna
    obtain ⟨y, hy⟩ : ∃ y, vb.toNum = some y := by
      cases vb <;>
        first
          | exact ⟨_, rfl⟩
          | simp [JValue.isIntOrFloat] at hnb
    exact ⟨x, y, hx, hy, add_tool_num d va vb x y ha hb hx hy,
      multiply_tool_num d va vb x y ha hb hx hy⟩
  · intro x y hxy
    cases x <;> cases y <;>
      simp_all [PyNum.isFloat, pyAdd, pyMul]

/-- C2 witness: add/multiply of the ints 2 and 3 succeed with the exact
int results. -/
theorem C2_witness :
    ∃ x y, (JValue.vInt 2).toNum = some x ∧
      (JValue.vInt 3).toNum = some y ∧
      add_tool [("a", .vInt 2), ("b", .vInt 3)] =
        .ok ("Result: " ++ pyNumStr (pyAdd x y)) ∧
      multiply_tool [("a", .vInt 2), ("b", .vInt 3)] =
        .ok ("Result: " ++ pyNumStr (pyMul x y)) :=
  (C2_add_multiply_numeric [("a", .vInt 2), ("b", .vInt 3)]
    (.vInt 2) (.vInt 3) rfl rfl rfl rfl).1

/-- C3: the reverse tool on `{text: s}` succeeds with "Result: " followed
by the code-point reversal of s, and the reversal is an involution. -/
theorem C3_reverse_roundtrip (s : String) :
    reverse_tool [("text", .vStr s)] = .ok ("Result: " ++ pyReverse s) ∧
    (pyReverse s).data = s.data.reverse ∧
    pyReverse (pyReverse s) = s := by
  refine ⟨rfl, rfl, ?_⟩
  cases s with
  | mk l => simp [pyReverse]

/-- C10: a boolean bound to `a` or `b` passes the numeric check of add
and multiply — CPython bool subclasses int — and is computed with as 0
or 1; in particular add with a=true, b=true returns "Result: 2". -/
theorem C10_bool_accepted (d : PyDict) (va vb : JValue) (x y : PyNum)
    (ha : pyLookup d "a" = some va) (hb : pyLookup d "b" = some vb)
    (_hbool : va.isBool = true ∨ vb.isBool = true)
    (hx : va.toNum = some x) (hy : vb.toNum = some y) :
    add_tool d = .ok ("Result: " ++ pyNumStr (pyAdd x y)) ∧
    multiply_tool d = .ok ("Result: " ++ pyNumStr (pyMul x y)) ∧
    (∀ b : Bool, (JValue.vBool b).toNum =
      some (.int (if b then 1 else 0))) ∧
    add_tool [("a", .vBool true), ("b", .vBool true)] = .ok "Result: 2" :=
  ⟨add_tool_num d va vb x y ha hb hx hy,
   multiply_tool_num d va vb x y ha hb hx hy,
   fun _ => rfl, rfl⟩

/-- C10 witness: a=true (as 1) with b=2 succeeds on add and multiply
instead of failing the type check. -/
theorem C10_witness :
    add_tool [("a", .vBool true), ("b", .vInt 2)] =
      .ok ("Result: " ++ pyNumStr (pyAdd (.int 1) (.int 2))) ∧
    multiply_tool [("a", .vBool true), ("b", .vInt 2)] =
      .ok ("Result: " ++ pyNumStr (pyMul (.int 1) (.int 2))) ∧
    (∀ b : Bool, (JValue.vBool b).toNum =
      some (.int (if b then 1 else 0))) ∧
    add_tool [("a", .vBool true), ("b", .vBool true)] = .ok "Result: 2" :=
  C10_bool_accepted [("a", .vBool true), ("b", .vInt 2)]
    (.vBool true) (.vInt 2) (.int 1) (.int 2) rfl rfl (Or.inl rfl) rfl rfl
